import Mathlib

/-!
Verification of the delivery-analytics dashboard script (`app.py`).

The script loads a spreadsheet, keeps its first eight columns, filters the
rows by a driver-rating range and two categorical multi-selections, and
renders twenty read-only panels over the filtered view.  We embed the data
model and the dataframe operations the script uses as executable Lean
definitions and prove the documented properties about them.

Modelling conventions:
  * a dataframe row is a `Row` record holding the seven named columns;
  * numeric columns are `ℚ`, dates are `ℤ` (any linearly ordered,
    decidable calendar encoding works the same);
  * a missing numeric aggregate (pandas `NaN` on an empty mean) is `none`;
  * a raw spreadsheet is a `List (List α)` of cell rows, and a possibly
    absent file is an `Option` of it.
-/

/-- One delivery record: the named columns the dashboard reads. -/
structure Row where
  rating : ℚ          -- "Driver Rating"
  ctype : String       -- "Customer Type"
  pay : String         -- "Payment Method"
  orderValue : ℚ      -- "Order Value"
  deliveryTime : ℚ    -- "Delivery Time(Minutes)"
  distance : ℚ        -- "Delivery Distance (KM)"
  date : ℤ            -- "Date"
deriving DecidableEq, Repr

/-- Errors of the data loader.  The script itself can only fail with a
missing-file error; `schemaMismatch` is listed to state the documented
taxonomy. -/
inductive LoadError where
  | resourceNotFound
  | schemaMismatch
deriving DecidableEq, Repr

/-- `load_data`: read the spreadsheet and keep the first eight columns
(`df.iloc[:, :8]`).  The input is `none` when the file is absent, in which
case `pd.read_excel` raises (ResourceNotFound); otherwise every row is
truncated to its first eight cells.  No schema check is performed. -/
def load_data {α : Type} (file : Option (List (List α))) :
    Except LoadError (List (List α)) :=
  match file with
  | none => .error .resourceNotFound
  | some t => .ok (t.map (fun row => row.take 8))

/-- The row predicate of the filter (lines 23–28 of the script):
`Driver Rating` within `[min_rating, max_rating]`, `Customer Type` among
the selected `customer_type` values, `Payment Method` among the selected
`payment_method` values. -/
def rowPass (min_rating max_rating : ℚ) (customer_type payment_method : List String)
    (r : Row) : Bool :=
  decide (min_rating ≤ r.rating) && decide (r.rating ≤ max_rating) &&
  decide (r.ctype ∈ customer_type) && decide (r.pay ∈ payment_method)

/-- `filtered_df`: boolean-mask selection of the rows satisfying all three
filter predicates, preserving the base table's row order. -/
def filtered_df (df : List Row) (min_rating max_rating : ℚ)
    (customer_type payment_method : List String) : List Row :=
  df.filter (rowPass min_rating max_rating customer_type payment_method)

/-- `Series.unique`: the distinct values of a column in order of first
appearance.  (This is also the "insertion/grouping order of keys as they
first appear" that the specification describes.) -/
def uniqueFirst {α : Type} [DecidableEq α] : List α → List α
  | [] => []
  | x :: xs => x :: (uniqueFirst xs).filter (fun y => decide (y ≠ x))

/-- `Series.mean`: the arithmetic mean of a list of values, `none` (NaN)
when the list is empty. -/
def meanOpt (l : List ℚ) : Option ℚ :=
  if l.isEmpty then none else some (l.sum / l.length)

/-- KPI `avg_rating = filtered_df["Driver Rating"].mean()`. -/
def avg_rating (view : List Row) : Option ℚ := meanOpt (view.map Row.rating)

/-- KPI `avg_time = filtered_df["Delivery Time(Minutes)"].mean()`. -/
def avg_time (view : List Row) : Option ℚ := meanOpt (view.map Row.deliveryTime)

/-- KPI `avg_value = filtered_df["Order Value"].mean()`. -/
def avg_value (view : List Row) : Option ℚ := meanOpt (view.map Row.orderValue)

/-- `groupby(key)[col].mean().reset_index()`: pandas groups by the key
column with `sort=True`, so the output has one row per distinct key, keys
sorted ascending, each carrying the mean of `val` over that key's rows. -/
def groupbyMean (key : Row → ℤ) (val : Row → ℚ) (rows : List Row) :
    List (ℤ × ℚ) :=
  (List.insertionSort (· ≤ ·) ((rows.map key).dedup)).map
    (fun d =>
      let g := rows.filter (fun r => decide (key r = d))
      (d, (g.map val).sum / g.length))

/-- `df_daily = filtered_df.groupby("Date")["Driver Rating"].mean().reset_index()`. -/
def df_daily (view : List Row) : List (ℤ × ℚ) :=
  groupbyMean Row.date Row.rating view

/-- `df_time = filtered_df.groupby("Date")["Delivery Time(Minutes)"].mean().reset_index()`. -/
def df_time (view : List Row) : List (ℤ × ℚ) :=
  groupbyMean Row.date Row.deliveryTime view

-- Basic facts about the embedded operations.

theorem mem_filtered_df {df : List Row} {r1 r2 : ℚ} {c p : List String} {row : Row} :
    row ∈ filtered_df df r1 r2 c p ↔
      row ∈ df ∧ r1 ≤ row.rating ∧ row.rating ≤ r2 ∧ row.ctype ∈ c ∧ row.pay ∈ p := by
  simp [filtered_df, rowPass, List.mem_filter, and_assoc]

theorem mem_uniqueFirst {α : Type} [DecidableEq α] (a : α) :
    ∀ l : List α, a ∈ uniqueFirst l ↔ a ∈ l := by
  intro l
  induction l with
  | nil => simp [uniqueFirst]
  | cons x xs ih =>
    by_cases hax : a = x
    · simp [uniqueFirst, hax]
    · simp [uniqueFirst, List.mem_filter, hax, ih]

-- Concrete example table from the specification, §8.
-- (rating=4.0, type=New,    pay=Cash, value=50)
-- (rating=2.0, type=Repeat, pay=Card, value=80)

/-- First example row: rating 4.0, New, Cash, order value 50. -/
def exRow1 : Row := ⟨4, "New", "Cash", 50, 30, 5, 1⟩

/-- Second example row: rating 2.0, Repeat, Card, order value 80. -/
def exRow2 : Row := ⟨2, "Repeat", "Card", 80, 45, 8, 2⟩

/-- The two-row example table of the specification. -/
def exTable : List Row := [exRow1, exRow2]

/-- C1: the filter is exact — a row of the base table is in the filtered
view iff its rating lies in `[min_rating, max_rating]`, its customer type
is selected and its payment method is selected; and on the specification's
two-row example with range `[3,5]` and both categories fully selected, the
result is exactly the first row and the mean Order Value KPI is 50. -/
theorem filter_exact_and_example :
    (∀ (df : List Row) (r1 r2 : ℚ) (c p : List String) (row : Row),
      row ∈ filtered_df df r1 r2 c p ↔
        row ∈ df ∧ r1 ≤ row.rating ∧ row.rating ≤ r2 ∧
          row.ctype ∈ c ∧ row.pay ∈ p) ∧
    filtered_df exTable 3 5 ["New", "Repeat"] ["Cash", "Card"] = [exRow1] ∧
    avg_value (filtered_df exTable 3 5 ["New", "Repeat"] ["Cash", "Card"]) = some 50 := by
  refine ⟨fun df r1 r2 c p row => mem_filtered_df, by decide, ?_⟩
  have h : filtered_df exTable 3 5 ["New", "Repeat"] ["Cash", "Card"] = [exRow1] := by
    decide
  rw [h]
  norm_num [avg_value, meanOpt, exRow1]

/-- C2: an empty customer-type selection or an empty payment-method
selection makes `isin` reject every row, so the filtered view is empty
whatever the other inputs are. -/
theorem filter_empty_selection (df : List Row) (r1 r2 : ℚ)
    (c p : List String) (h : c = [] ∨ p = []) :
    filtered_df df r1 r2 c p = [] := by
  rcases h with h | h <;> subst h <;>
    simp [filtered_df, List.filter_eq_nil_iff, rowPass]

/-- Witness for C2: on the example table with the full rating range, an
empty customer-type selection yields no rows. -/
theorem filter_empty_selection_witness :
    filtered_df exTable 1 5 [] ["Cash", "Card"] = [] :=
  filter_empty_selection exTable 1 5 [] ["Cash", "Card"] (Or.inl rfl)

/-- C7: filtering is idempotent — applying the same filter to the filtered
view returns the filtered view itself. -/
theorem filter_idempotent (df : List Row) (r1 r2 : ℚ) (c p : List String) :
    filtered_df (filtered_df df r1 r2 c p) r1 r2 c p =
      filtered_df df r1 r2 c p := by
  simp only [filtered_df, List.filter_filter, Bool.and_self]

/-- C10: the filter is monotone — enlarging the rating interval and the two
selection sets can only add rows; and with the full range `[1, 5]` and both
selections equal to all distinct values of the table, every row whose
rating lies in the documented domain `[1, 5]` is retained. -/
theorem filter_monotone (df : List Row) (r1 r2 r1' r2' : ℚ)
    (c c' p p' : List String)
    (hr1 : r1' ≤ r1) (hr2 : r2 ≤ r2') (hc : c ⊆ c') (hp : p ⊆ p') :
    filtered_df df r1 r2 c p ⊆ filtered_df df r1' r2' c' p' ∧
    (∀ row ∈ df, 1 ≤ row.rating → row.rating ≤ 5 →
      row ∈ filtered_df df 1 5 (uniqueFirst (df.map Row.ctype))
        (uniqueFirst (df.map Row.pay))) := by
  constructor
  · intro row hrow
    rw [mem_filtered_df] at hrow ⊢
    exact ⟨hrow.1, le_trans hr1 hrow.2.1, le_trans hrow.2.2.1 hr2,
      hc hrow.2.2.2.1, hp hrow.2.2.2.2⟩
  · intro row hrow h1 h5
    rw [mem_filtered_df]
    exact ⟨hrow, h1, h5,
      (mem_uniqueFirst _ _).mpr (List.mem_map_of_mem Row.ctype hrow),
      (mem_uniqueFirst _ _).mpr (List.mem_map_of_mem Row.pay hrow)⟩

/-- Witness for C10 at the example table: the `[3,5]` filtered view is
contained in the full-range one, and the first example row (rating 4) is
retained under the widest inputs. -/
theorem filter_monotone_witness :
    filtered_df exTable 3 5 ["New"] ["Cash"] ⊆
      filtered_df exTable 1 5 ["New", "Repeat"] ["Cash", "Card"] ∧
    exRow1 ∈ filtered_df exTable 1 5 (uniqueFirst (exTable.map Row.ctype))
      (uniqueFirst (exTable.map Row.pay)) := by
  have h := filter_monotone exTable 3 5 1 5 ["New"] ["New", "Repeat"]
    ["Cash"] ["Cash", "Card"] (by norm_num) le_rfl
    (by intro a ha; simp at ha; simp [ha]) (by intro a ha; simp at ha; simp [ha])
  exact ⟨h.1, h.2 exRow1 (by decide) (by decide) (by decide)⟩

/-- C3: each scalar KPI is the arithmetic mean of its column over exactly
the filtered rows: on an empty filtered view all three are undefined
(`none`, pandas NaN — the computation still returns a value rather than
raising), and on a non-empty view each equals the column sum divided by
the row count. -/
theorem kpis_are_means (df : List Row) (r1 r2 : ℚ) (c p : List String) :
    (filtered_df df r1 r2 c p = [] →
      avg_rating (filtered_df df r1 r2 c p) = none ∧
      avg_time (filtered_df df r1 r2 c p) = none ∧
      avg_value (filtered_df df r1 r2 c p) = none) ∧
    (filtered_df df r1 r2 c p ≠ [] →
      avg_rating (filtered_df df r1 r2 c p) =
        some (((filtered_df df r1 r2 c p).map Row.rating).sum /
          (filtered_df df r1 r2 c p).length) ∧
      avg_time (filtered_df df r1 r2 c p) =
        some (((filtered_df df r1 r2 c p).map Row.deliveryTime).sum /
          (filtered_df df r1 r2 c p).length) ∧
      avg_value (filtered_df df r1 r2 c p) =
        some (((filtered_df df r1 r2 c p).map Row.orderValue).sum /
          (filtered_df df r1 r2 c p).length)) := by
  constructor
  · intro h
    simp [avg_rating, avg_time, avg_value, meanOpt, h]
  · intro h
    simp [avg_rating, avg_time, avg_value, meanOpt, List.isEmpty_iff, h]

/-- Witness for C3: on the example table filtered to `[3,5]`, the view is
the single first row and the KPI means are defined; with
customer types deselected, the view is empty and all KPIs are `none`. -/
theorem kpis_are_means_witness :
    (avg_rating (filtered_df exTable 3 5 ["New", "Repeat"] ["Cash", "Card"]) =
      some (((filtered_df exTable 3 5 ["New", "Repeat"] ["Cash", "Card"]).map
        Row.rating).sum /
        (filtered_df exTable 3 5 ["New", "Repeat"] ["Cash", "Card"]).length)) ∧
    avg_rating (filtered_df exTable 3 5 [] []) = none := by
  refine ⟨((kpis_are_means exTable 3 5 ["New", "Repeat"] ["Cash", "Card"]).2
    (by decide)).1, ?_⟩
  exact ((kpis_are_means exTable 3 5 [] []).1 (by decide)).1

-- Facts about the grouped aggregation shared by the date panels.

theorem groupbyMean_map_fst (key : Row → ℤ) (val : Row → ℚ) (rows : List Row) :
    (groupbyMean key val rows).map Prod.fst =
      List.insertionSort (· ≤ ·) ((rows.map key).dedup) := by
  unfold groupbyMean
  rw [List.map_map]
  exact List.map_id _

theorem groupbyMean_keys_nodup (key : Row → ℤ) (val : Row → ℚ) (rows : List Row) :
    ((groupbyMean key val rows).map Prod.fst).Nodup := by
  rw [groupbyMean_map_fst]
  exact ((List.perm_insertionSort _ _).nodup_iff).mpr (List.nodup_dedup _)

theorem groupbyMean_mem_keys (key : Row → ℤ) (val : Row → ℚ) (rows : List Row)
    (d : ℤ) :
    d ∈ (groupbyMean key val rows).map Prod.fst ↔ d ∈ rows.map key := by
  rw [groupbyMean_map_fst]
  rw [(List.perm_insertionSort _ _).mem_iff, List.mem_dedup]

theorem groupbyMean_value (key : Row → ℤ) (val : Row → ℚ) (rows : List Row)
    (x : ℤ × ℚ) (hx : x ∈ groupbyMean key val rows) :
    x.2 = ((rows.filter (fun r => decide (key r = x.1))).map val).sum /
      (rows.filter (fun r => decide (key r = x.1))).length := by
  simp only [groupbyMean, List.mem_map] at hx
  obtain ⟨d, _, rfl⟩ := hx
  rfl

/-- C5: each grouped-by-date panel emits exactly one output row per
distinct `Date` of the filtered view (keys are free of duplicates and
cover precisely the dates present), and the value attached to a date is
the arithmetic mean of the panel's column over exactly the filtered rows
carrying that date. -/
theorem groupby_date_panels_exact (view : List Row) :
    (((df_daily view).map Prod.fst).Nodup ∧
      (∀ d, d ∈ (df_daily view).map Prod.fst ↔ d ∈ view.map Row.date) ∧
      ∀ x ∈ df_daily view,
        x.2 = ((view.filter (fun r => decide (r.date = x.1))).map Row.rating).sum /
          (view.filter (fun r => decide (r.date = x.1))).length) ∧
    (((df_time view).map Prod.fst).Nodup ∧
      (∀ d, d ∈ (df_time view).map Prod.fst ↔ d ∈ view.map Row.date) ∧
      ∀ x ∈ df_time view,
        x.2 = ((view.filter (fun r => decide (r.date = x.1))).map Row.deliveryTime).sum /
          (view.filter (fun r => decide (r.date = x.1))).length) :=
  ⟨⟨groupbyMean_keys_nodup _ _ _,
    fun d => groupbyMean_mem_keys _ _ _ d,
    fun x hx => groupbyMean_value _ _ _ x hx⟩,
   ⟨groupbyMean_keys_nodup _ _ _,
    fun d => groupbyMean_mem_keys _ _ _ d,
    fun x hx => groupbyMean_value _ _ _ x hx⟩⟩

/-- Amended C6: the output keys of the Average Rating by Date panel are
sorted by date ascending — pandas `groupby` sorts the group keys, it does
not keep them in order of first appearance in the filtered view. -/
theorem df_daily_keys_sorted (view : List Row) :
    List.Sorted (· ≤ ·) ((df_daily view).map Prod.fst) := by
  rw [df_daily, groupbyMean_map_fst]
  exact List.sorted_insertionSort _ _

/-- Counterexample to C6 as stated: a two-row filtered view whose dates
first appear in the order `[2, 1]`; the panel's keys come out `[1, 2]`,
sorted ascending, which is not the first-appearance (insertion) order. -/
theorem df_daily_not_insertion_order :
    (df_daily (filtered_df [⟨4, "New", "Cash", 50, 30, 5, 2⟩,
        ⟨2, "Repeat", "Card", 80, 45, 8, 1⟩] 1 5 ["New", "Repeat"]
        ["Cash", "Card"])).map Prod.fst = [1, 2] ∧
    uniqueFirst ((filtered_df [⟨4, "New", "Cash", 50, 30, 5, 2⟩,
        ⟨2, "Repeat", "Card", 80, 45, 8, 1⟩] 1 5 ["New", "Repeat"]
        ["Cash", "Card"]).map Row.date) = [2, 1] ∧
    (df_daily (filtered_df [⟨4, "New", "Cash", 50, 30, 5, 2⟩,
        ⟨2, "Repeat", "Card", 80, 45, 8, 1⟩] 1 5 ["New", "Repeat"]
        ["Cash", "Card"])).map Prod.fst ≠
      uniqueFirst ((filtered_df [⟨4, "New", "Cash", 50, 30, 5, 2⟩,
        ⟨2, "Repeat", "Card", 80, 45, 8, 1⟩] 1 5 ["New", "Repeat"]
        ["Cash", "Card"]).map Row.date) := by
  refine ⟨by decide, by decide, by decide⟩

/-- Counterexample to C4 as stated: a spreadsheet exposing only three
columns loads successfully — `iloc[:, :8]` silently keeps what is there and
no SchemaMismatch error is raised. -/
theorem load_data_three_columns_ok :
    load_data (some [[(1 : ℕ), 2, 3]]) = Except.ok [[1, 2, 3]] := rfl

/-- Amended C4: the loader performs no schema validation.  A missing file
fails with ResourceNotFound, but a present spreadsheet always loads: each
row is silently truncated to its first `min 8 width` cells and no
SchemaMismatch error is ever produced, however few columns there are. -/
theorem load_data_no_schema_check {α : Type} (t : List (List α)) :
    load_data (none : Option (List (List α))) = .error .resourceNotFound ∧
    load_data (some t) = .ok (t.map fun row => row.take 8) ∧
    (∀ e, load_data (some t) ≠ Except.error e) ∧
    ∀ row ∈ t, (row.take 8).length = min 8 row.length := by
  refine ⟨rfl, rfl, fun e h => by simp [load_data] at h, fun row _ => ?_⟩
  simp [List.length_take]

/-- C8: when every spreadsheet row has at least eight cells, the loaded
table is exactly the first eight columns in their original order, with
every source row retained, in order, and nothing else: the row count is
unchanged, each loaded row has exactly eight cells, and cell `j < 8` of
each loaded row equals cell `j` of the corresponding source row. -/
theorem load_data_first_eight {α : Type} (t : List (List α))
    (h : ∀ row ∈ t, 8 ≤ row.length) :
    load_data (some t) = .ok (t.map fun row => row.take 8) ∧
    (t.map fun row => row.take 8).length = t.length ∧
    ∀ row ∈ t, (row.take 8).length = 8 ∧
      ∀ j, j < 8 → (row.take 8)[j]? = row[j]? := by
  refine ⟨rfl, List.length_map _ _, fun row hrow => ?_⟩
  refine ⟨List.length_take_of_le (h row hrow), fun j hj => ?_⟩
  exact List.getElem?_take_of_lt hj

/-- Witness for C8 at a one-row, nine-column spreadsheet: the loaded table
keeps exactly the first eight cells in order. -/
theorem load_data_first_eight_witness :
    load_data (some [[(0 : ℕ), 1, 2, 3, 4, 5, 6, 7, 8]]) =
      .ok ([[(0 : ℕ), 1, 2, 3, 4, 5, 6, 7, 8]].map fun row => row.take 8) ∧
    ([[(0 : ℕ), 1, 2, 3, 4, 5, 6, 7, 8]].map fun row => row.take 8).length =
      [[(0 : ℕ), 1, 2, 3, 4, 5, 6, 7, 8]].length ∧
    ∀ row ∈ [[(0 : ℕ), 1, 2, 3, 4, 5, 6, 7, 8]], (row.take 8).length = 8 ∧
      ∀ j, j < 8 → (row.take 8)[j]? = row[j]? :=
  load_data_first_eight [[(0 : ℕ), 1, 2, 3, 4, 5, 6, 7, 8]] (by decide)

-- The panel renderer.  Each of the twenty panels of the script is an
-- expression over `filtered_df` handed to a chart/table/metric widget; we
-- embed each panel as the data its widget consumes, a pure function of the
-- view.  (The heatmap and the describe() table consume the numeric-column
-- projection; their real-valued statistics — Pearson r, standard
-- deviation — live outside ℚ and are not needed by any claim here.)

/-- One rendered artifact: the data a panel's widget consumes. -/
inductive Artifact where
  | qs (data : List ℚ)               -- one numeric column
  | ss (data : List String)           -- one categorical column
  | qq (data : List (ℚ × ℚ))        -- numeric x / numeric y
  | sq (data : List (String × ℚ))   -- categorical x / numeric y
  | dq (data : List (ℤ × ℚ))        -- date x / numeric y
  | numTable (cols : List (List ℚ))  -- numeric projection (corr, describe)
  | raw (rows : List Row)             -- raw data table
  | kpi (rating time value : Option ℚ)  -- the three metrics

/-- `select_dtypes(include='number')`: the numeric columns of the view. -/
def numericColumns (view : List Row) : List (List ℚ) :=
  [view.map Row.rating, view.map Row.orderValue,
   view.map Row.deliveryTime, view.map Row.distance]

/-- Panel 1: histogram of Driver Rating. -/
def fig1 (view : List Row) : Artifact := .qs (view.map Row.rating)

/-- Panel 2: box plot of Order Value by Driver Rating. -/
def fig2 (view : List Row) : Artifact :=
  .qq (view.map fun r => (r.rating, r.orderValue))

/-- Panel 3: box plot of Delivery Time by Driver Rating. -/
def fig3 (view : List Row) : Artifact :=
  .qq (view.map fun r => (r.rating, r.deliveryTime))

/-- Panel 4: box plot of Order Value by Customer Type. -/
def fig4 (view : List Row) : Artifact :=
  .sq (view.map fun r => (r.ctype, r.orderValue))

/-- Panel 5: histogram of Payment Method. -/
def fig5 (view : List Row) : Artifact := .ss (view.map Row.pay)

/-- Panel 6: box plot of Driver Rating by Customer Type. -/
def fig6 (view : List Row) : Artifact :=
  .sq (view.map fun r => (r.ctype, r.rating))

/-- Panel 7: box plot of Delivery Time by Payment Method. -/
def fig7 (view : List Row) : Artifact :=
  .sq (view.map fun r => (r.pay, r.deliveryTime))

/-- Panel 8: correlation heatmap over the numeric columns. -/
def fig8 (view : List Row) : Artifact := .numTable (numericColumns view)

/-- Panel 9: scatter of Driver Rating vs Delivery Time. -/
def fig9 (view : List Row) : Artifact :=
  .qq (view.map fun r => (r.rating, r.deliveryTime))

/-- Panel 10: scatter of Driver Rating vs Delivery Distance. -/
def fig10 (view : List Row) : Artifact :=
  .qq (view.map fun r => (r.rating, r.distance))

/-- Panel 11: scatter of Driver Rating vs Order Value. -/
def fig11 (view : List Row) : Artifact :=
  .qq (view.map fun r => (r.rating, r.orderValue))

/-- Panel 12: histogram of orders over time, colored by rating. -/
def fig12 (view : List Row) : Artifact :=
  .dq (view.map fun r => (r.date, r.rating))

/-- Panel 13: line chart of Average Rating by Date. -/
def fig13 (view : List Row) : Artifact := .dq (df_daily view)

/-- Panel 14: line chart of Average Delivery Time by Date. -/
def fig14 (view : List Row) : Artifact := .dq (df_time view)

/-- Panel 15: outlier box plot of Order Value. -/
def fig15 (view : List Row) : Artifact := .qs (view.map Row.orderValue)

/-- Panel 16: outlier box plot of Delivery Time. -/
def fig16 (view : List Row) : Artifact := .qs (view.map Row.deliveryTime)

/-- Panel 17: `describe()` summary table over the numeric columns. -/
def summary_table (view : List Row) : Artifact := .numTable (numericColumns view)

/-- Panel 18: raw data table. -/
def raw_table (view : List Row) : Artifact := .raw view

/-- Panel 19: the three KPI metrics. -/
def kpi_summary (view : List Row) : Artifact :=
  .kpi (avg_rating view) (avg_time view) (avg_value view)

/-- Panel 20: box plot of Delivery Distance. -/
def fig20 (view : List Row) : Artifact := .qs (view.map Row.distance)

/-- The render cycle's state: the filtered view and the outputs emitted so
far, in panel order. -/
structure RenderState where
  view : List Row
  outputs : List Artifact

/-- The twenty panels, in the order the script renders them. -/
def panels : List (List Row → Artifact) :=
  [fig1, fig2, fig3, fig4, fig5, fig6, fig7, fig8, fig9, fig10, fig11,
   fig12, fig13, fig14, fig15, fig16, summary_table, raw_table,
   kpi_summary, fig20]

/-- Render one panel: compute its artifact from the current view and
append it to the outputs. -/
def renderStep (s : RenderState) (p : List Row → Artifact) : RenderState :=
  ⟨s.view, s.outputs ++ [p s.view]⟩

/-- Render the full panel sequence. -/
def renderAll (s : RenderState) : RenderState := panels.foldl renderStep s

/-- C9: rendering all twenty panels leaves the filtered view unchanged,
and the outputs are the prior outputs followed by the twenty artifacts,
each computed from the original view alone — so no panel mutates the view
and no panel's output feeds another's. -/
theorem render_preserves_view (s : RenderState) :
    (renderAll s).view = s.view ∧
    (renderAll s).outputs = s.outputs ++
      [fig1 s.view, fig2 s.view, fig3 s.view, fig4 s.view, fig5 s.view,
       fig6 s.view, fig7 s.view, fig8 s.view, fig9 s.view, fig10 s.view,
       fig11 s.view, fig12 s.view, fig13 s.view, fig14 s.view,
       fig15 s.view, fig16 s.view, summary_table s.view, raw_table s.view,
       kpi_summary s.view, fig20 s.view] := by
  constructor <;> simp [renderAll, panels, renderStep]
